import Mathlib

/-!
# Verification of the wuzapi Chatwoot bridge and webhook delivery engine

Shallow embedding of the bridge service (`pkg/chatwoot`), the Chatwoot
webhook handler (`handlers_chatwoot.go`) and the webhook delivery engine
(`callHookWithHmac` / `callHookFileWithHmac`), together with theorems
settling the spec claims about them.

Conventions:
  - Go `sync.Map` and `map[string]T` values are modelled as association
    lists (`List (String × α)`) with first-match lookup semantics.
  - `time.Time` values are modelled as `Nat` (seconds of monotonic time).
  - Fallible calls (`(T, error)` in Go) are modelled as `Except String T`.
  - Network collaborators (the Chatwoot HTTP API, the WhatsApp client) are
    modelled as environments of response functions; each handler returns,
    next to its result, the trace of remote calls it performed.
-/

namespace Wuzapi

/-! ## Association-list helpers (model of `sync.Map` / Go maps) -/

def assocLookup {α : Type} : List (String × α) → String → Option α
  | [], _ => none
  | (k, v) :: rest, key => if k = key then some v else assocLookup rest key

def assocStore {α : Type} : List (String × α) → String → α → List (String × α)
  | [], key, v => [(key, v)]
  | (k, w) :: rest, key, v =>
      if k = key then (k, v) :: rest else (k, w) :: assocStore rest key v

theorem assocLookup_assocStore_self {α : Type} (c : List (String × α)) (k : String) (v : α) :
    assocLookup (assocStore c k v) k = some v := by
  induction c with
  | nil => simp [assocStore, assocLookup]
  | cons hd tl ih =>
      obtain ⟨k1, v1⟩ := hd
      by_cases h : k1 = k
      · subst h
        simp [assocStore, assocLookup]
      · simp [assocStore, assocLookup, h, ih]

theorem assocLookup_assocStore_ne {α : Type} (c : List (String × α)) (k j : String) (v : α)
    (h : j ≠ k) : assocLookup (assocStore c j v) k = assocLookup c k := by
  induction c with
  | nil => simp [assocStore, assocLookup, h]
  | cons hd tl ih =>
      obtain ⟨k1, v1⟩ := hd
      by_cases h1 : k1 = j
      · subst h1
        simp [assocStore, assocLookup, h]
      · simp [assocStore, assocLookup, h1, ih]

/-! ## Hex encoding (model of Go `hex.EncodeToString`) -/

def hexDigit (n : Nat) : Char :=
  if n < 10 then Char.ofNat (48 + n) else Char.ofNat (87 + n)

def hexEncode (bytes : List Nat) : String :=
  String.mk (bytes.foldr (fun b acc => hexDigit (b / 16 % 16) :: hexDigit (b % 16) :: acc) [])

/-! ## Delivery engine (`callHookWithHmac` / `callHookFileWithHmac`, stdio_test.go)

The HTTP target is modelled by a function from the 0-based attempt index to
the attempt outcome (transport error, or an HTTP status with a body).  The
`time.Sleep` calls are modelled by recording the slept durations (in
seconds) in order.  The HMAC-signing of the transmitted bytes does not
affect control flow (signature errors are logged only) and is outside the
modelled fragment.
-/

inductive AttemptResult where
  | transportError (msg : String)
  | httpStatus (code : Nat) (body : String)
deriving Repr, DecidableEq

/-- The error message built on a non-2xx response
(`fmt.Errorf("unexpected status code: %d. Body: %s", ...)`). -/
def statusFailMsg (code : Nat) (body : String) : String :=
  "unexpected status code: " ++ toString code ++ ". Body: " ++ body

structure LoopResult where
  attempts : Nat
  delays : List Nat
  success : Bool
  lastError : Option String
deriving Repr, DecidableEq

/-- The retry loop shared by both delivery variants
(`for attempt := 0; attempt < maxRetries; attempt++`).  `fuel` is the
remaining attempt budget, `i` the 0-based index of the next attempt and the
final argument the `lastError` accumulated so far.  Before attempt `i > 0`
the code sleeps `webhookRetryDelaySeconds * 2^(i-1)` seconds; a 2xx status
returns immediately with `lastError = nil`; a transport error always
continues; a non-2xx status breaks out of the loop when retries are
globally disabled and continues otherwise. -/
def webhookLoop (responses : Nat → AttemptResult) (retryEnabled : Bool) (baseDelay : Nat) :
    Nat → Nat → Option String → LoopResult
  | 0, _, le => { attempts := 0, delays := [], success := false, lastError := le }
  | fuel + 1, i, _ =>
      let dly : List Nat := if i = 0 then [] else [baseDelay * 2 ^ (i - 1)]
      match responses i with
      | AttemptResult.transportError m =>
          let r := webhookLoop responses retryEnabled baseDelay fuel (i + 1) (some m)
          { r with attempts := r.attempts + 1, delays := dly ++ r.delays }
      | AttemptResult.httpStatus code body =>
          if 200 ≤ code ∧ code < 300 then
            { attempts := 1, delays := dly, success := true, lastError := none }
          else
            let em := some (statusFailMsg code body)
            if retryEnabled then
              let r := webhookLoop responses retryEnabled baseDelay fuel (i + 1) em
              { r with attempts := r.attempts + 1, delays := dly ++ r.delays }
            else
              { attempts := 1, delays := dly, success := false, lastError := em }

/-- The global retry flags (`*webhookRetryEnabled`, `*webhookRetryCount`,
`*webhookRetryDelaySeconds`). -/
structure RetryConfig where
  webhookRetryEnabled : Bool
  webhookRetryCount : Nat
  webhookRetryDelaySeconds : Nat
deriving Repr, DecidableEq

/-- `maxRetries := 1; if *webhookRetryEnabled { maxRetries = *webhookRetryCount }` -/
def maxRetriesOf (cfg : RetryConfig) : Nat :=
  if cfg.webhookRetryEnabled then cfg.webhookRetryCount else 1

/-- Dead-letter record of the data variant (`WebhookErrorPayload`). -/
structure WebhookErrorPayload where
  url : String
  payload : List (String × String)
  userID : String
  encryptedHmacKey : String
  attemptTime : Nat
  errorMessage : String
deriving Repr, DecidableEq

/-- Dead-letter record of the file variant (`WebhookFileErrorPayload`). -/
structure WebhookFileErrorPayload where
  url : String
  payload : List (String × String)
  userID : String
  encryptedHmacKey : String
  filePath : String
  attemptTime : Nat
  errorMessage : String
deriving Repr, DecidableEq

/-- `callHookWithHmac` (stdio_test.go:1055-1199): runs the retry loop; when
the loop ends with a non-nil `lastError` it builds a `WebhookErrorPayload`
from the url, the transmitted payload map, the user id, the hex-encoded
encrypted HMAC key, the current time and the last error, and hands it to
`PublishDataErrorToQueue`.  The Go function has no return value: the second
component is the dead-letter record handed to the publisher (if any). -/
def callHookWithHmac (myurl : String) (payload : List (String × String)) (userID : String)
    (encryptedHmacKey : List Nat) (cfg : RetryConfig) (responses : Nat → AttemptResult)
    (now : Nat) : LoopResult × Option WebhookErrorPayload :=
  let r := webhookLoop responses cfg.webhookRetryEnabled cfg.webhookRetryDelaySeconds
    (maxRetriesOf cfg) 0 none
  match r.lastError with
  | none => (r, none)
  | some e =>
      (r, some { url := myurl, payload := payload, userID := userID,
                 encryptedHmacKey := hexEncode encryptedHmacKey,
                 attemptTime := now, errorMessage := e })

/-- `callHookFileWithHmac` (stdio_test.go:1207-1318): builds
`finalPayload` as a copy of the payload map with the `file` key set, runs
the same retry loop, and on terminal failure builds a
`WebhookFileErrorPayload` (which additionally carries the file path), hands
it to `PublishFileErrorToQueue` and RETURNS
`fmt.Errorf("webhook failed permanently: %w", lastError)` to its caller.
The third component is that returned error (`none` on success). -/
def callHookFileWithHmac (myurl : String) (payload : List (String × String)) (userID : String)
    (file : String) (encryptedHmacKey : List Nat) (cfg : RetryConfig)
    (responses : Nat → AttemptResult) (now : Nat) :
    LoopResult × Option WebhookFileErrorPayload × Option String :=
  let finalPayload := assocStore payload "file" file
  let r := webhookLoop responses cfg.webhookRetryEnabled cfg.webhookRetryDelaySeconds
    (maxRetriesOf cfg) 0 none
  match r.lastError with
  | none => (r, none, none)
  | some e =>
      (r, some { url := myurl, payload := finalPayload, userID := userID,
                 encryptedHmacKey := hexEncode encryptedHmacKey, filePath := file,
                 attemptTime := now, errorMessage := e },
       some ("webhook failed permanently: " ++ e))

/-! ## Chatwoot bridge data model (`pkg/chatwoot/config.go`)

`sql.NullInt64` is modelled as `Option Int` (invalid ↔ `none`); the Go code
reads it as `int(config.InboxID.Int64)`, i.e. `0` when invalid, modelled by
`Option.getD 0`.  Timestamps are opaque strings here (they play no role in
any claim). -/

structure Config where
  userID : String
  accountID : String
  token : String
  url : String
  inboxID : Option Int
  nameInbox : String
  enabled : Bool
  autoCreate : Bool
  signMsg : Bool
  reopenConversation : Bool
  conversationPending : Bool
  mergeBrazilContacts : Bool
  signDelimiter : String
  organization : String
  logo : String
  createdAt : String
  updatedAt : String
deriving Repr, DecidableEq

/-- A row of `chatwoot_conversations` (`ConversationCache` in config.go). -/
structure ConversationRow where
  userID : String
  chatJID : String
  chatwootConversationID : Int
  chatwootContactID : Int
  chatwootInboxID : Int
deriving Repr, DecidableEq

/-- The persistent store visible to the bridge service: the tenant's
`chatwoot_config` row (`none` models `sql.ErrNoRows`), the
`chatwoot_conversations` table, and whether an `INSERT` into the latter
succeeds. -/
structure DbState where
  chatwootConfig : Option Config
  chatwootConversations : List ConversationRow
  insertOk : Bool
deriving Repr, DecidableEq

/-- The two in-process `sync.Map` caches owned by `chatwoot.Service`:
message-id dedupe (id ↦ first-seen time) and conversation lookups
(`userID:chatJID` ↦ conversation id). -/
structure ServiceState where
  dedupeCache : List (String × Nat)
  conversationCache : List (String × Int)
deriving Repr, DecidableEq

/-! ## WhatsApp message events (`events.Message`, whatsmeow)

Only the parts the bridge reads are modelled.  Go protobuf getters are
nil-safe: `GetConversation()` yields `""` when unset, and
`GetExtendedTextMessage().GetText()` yields `""` when the extended text
message is absent. -/

structure MediaInfo where
  mimetype : String
  caption : String
  fileName : String
deriving Repr, DecidableEq

structure MsgContent where
  protocolMessage : Bool
  reactionMessage : Bool
  pollCreationMessage : Bool
  pollUpdateMessage : Bool
  keepInChatMessage : Bool
  conversation : String
  extendedTextMessage : Option String
  imageMessage : Option MediaInfo
  videoMessage : Option MediaInfo
  audioMessage : Option MediaInfo
  documentMessage : Option MediaInfo
  stickerMessage : Option MediaInfo
deriving Repr, DecidableEq

/-- `evt.Message.GetExtendedTextMessage().GetText()` (nil-safe getter). -/
def MsgContent.extendedText (m : MsgContent) : String :=
  match m.extendedTextMessage with
  | none => ""
  | some t => t

structure MessageEvent where
  id : String
  pushName : String
  senderJID : String
  chatJID : String
  isGroup : Bool
  isFromMe : Bool
  message : MsgContent
deriving Repr, DecidableEq

/-- `shouldSkipMessage` (noise filter, part_002:201-237). -/
def shouldSkipMessage (evt : MessageEvent) : Bool :=
  if evt.message.protocolMessage then true
  else if evt.message.reactionMessage then true
  else if evt.message.pollCreationMessage || evt.message.pollUpdateMessage then true
  else if evt.message.keepInChatMessage then true
  else
    let hasText := evt.message.conversation ≠ "" || evt.message.extendedText ≠ ""
    let hasMedia := evt.message.imageMessage.isSome || evt.message.videoMessage.isSome ||
      evt.message.audioMessage.isSome || evt.message.documentMessage.isSome ||
      evt.message.stickerMessage.isSome
    if !hasText && !hasMedia then true else false

/-- `strings.HasPrefix(s, pre)` (character-level; all uses in this code
involve ASCII tags such as `WAID:` and `+`). -/
def goHasPre (s pre : String) : Bool := pre.toList.isPrefixOf s.toList

/-- `strings.TrimPrefix(s, pre)`: drop `pre` when it is there. -/
def goTrimPre (s pre : String) : String :=
  if goHasPre s pre then String.mk (s.toList.drop pre.toList.length) else s

/-- `strings.Split(s, "@")[0]` (the separator is a single character, so
this is the part before the first `@`). -/
def localPart (s : String) : String := String.mk (s.toList.takeWhile fun c => c ≠ '@')

/-- `formatToE164` (part_002:486-500): trim one leading `+`, keep only the
digits, put `+` back in front. -/
def formatToE164 (phone : String) : String :=
  let p1 := goTrimPre phone "+"
  let p2 := String.mk (p1.toList.filter fun c => c.isDigit)
  "+" ++ p2

/-! ## Remote Chatwoot API environment -/

/-- Trace entries for remote Chatwoot API calls performed by the bridge. -/
inductive RemoteCall where
  | findContact (phone : String)
  | createContact (inboxID : Int) (name phone identifier : String)
  | createConversation (contactID inboxID : Int) (sourceID : String) (pending : Bool)
  | createMessage (conversationID : Int) (msgType content : String) (priv : Bool) (sourceID : String)
  | sendMedia (conversationID : Int) (msgType fileName mimeType caption sourceID : String)
deriving Repr, DecidableEq

/-- Responses of the remote collaborators (Chatwoot API, WhatsApp media
download) to the bridge's calls. -/
structure RemoteEnv where
  findContactByPhone : String → Except String Int
  createContact : Int → String → String → String → String → Except String Int
  createConversation : Int → Int → String → Bool → Except String Int
  createMessage : Int → String → String → Bool → String → Except String Int
  download : MediaInfo → Except String (List Nat)
  sendMediaMessage : Int → String → List Nat → String → String → String → String → Except String Int

/-- `ensureContact` (part_002:256-278): look the contact up by phone; on a
miss, require a configured inbox and create the contact (avatar URL `""`). -/
def ensureContact (env : RemoteEnv) (config : Config)
    (phoneNumber contactName identifier : String) : Except String Int × List RemoteCall :=
  match env.findContactByPhone phoneNumber with
  | Except.ok contactID => (Except.ok contactID, [RemoteCall.findContact phoneNumber])
  | Except.error _ =>
      let inboxID := config.inboxID.getD 0
      if inboxID = 0 then
        (Except.error "inbox_id not configured", [RemoteCall.findContact phoneNumber])
      else
        match env.createContact inboxID contactName phoneNumber identifier "" with
        | Except.ok contactID =>
            (Except.ok contactID,
              [RemoteCall.findContact phoneNumber,
               RemoteCall.createContact inboxID contactName phoneNumber identifier])
        | Except.error e =>
            (Except.error ("failed to create contact: " ++ e),
              [RemoteCall.findContact phoneNumber,
               RemoteCall.createContact inboxID contactName phoneNumber identifier])

/-- `SELECT * FROM chatwoot_conversations WHERE user_id = $1 AND chat_jid = $2` -/
def dbLookupConversation (db : DbState) (userID chatJID : String) : Option ConversationRow :=
  db.chatwootConversations.find? fun row => row.userID == userID && row.chatJID == chatJID

/-- Outcome of one `ensureConversation` call: its result, the updated
caches, the remote calls performed, and whether the database tier was
queried (`false` exactly on a memory-tier hit). -/
structure EnsureConvResult where
  result : Except String Int
  state : ServiceState
  db : DbState
  calls : List RemoteCall
  dbQueried : Bool
deriving Repr

/-- `ensureConversation` (part_002:281-392): memory cache, then database
cache (populating memory on a hit), then remote creation with source id
`wa:<chatJID>`, persisting the new mapping (a persistence failure is logged
but does not fail the operation) and populating the memory cache. -/
def ensureConversation (userID : String) (env : RemoteEnv) (config : Config) (contactID : Int)
    (chatJID : String) (st : ServiceState) (db : DbState) : EnsureConvResult :=
  let cacheKey := userID ++ ":" ++ chatJID
  match assocLookup st.conversationCache cacheKey with
  | some convID =>
      { result := Except.ok convID, state := st, db := db, calls := [], dbQueried := false }
  | none =>
    match dbLookupConversation db userID chatJID with
    | some row =>
        let st2 : ServiceState := { st with conversationCache := assocStore st.conversationCache cacheKey row.chatwootConversationID }
        { result := Except.ok row.chatwootConversationID, state := st2, db := db, calls := [], dbQueried := true }
    | none =>
        let inboxID := config.inboxID.getD 0
        let sourceID := "wa:" ++ chatJID
        let createCall := [RemoteCall.createConversation contactID inboxID sourceID config.conversationPending]
        match env.createConversation contactID inboxID sourceID config.conversationPending with
        | Except.error e =>
            { result := Except.error ("failed to create conversation: " ++ e),
              state := st, db := db, calls := createCall, dbQueried := true }
        | Except.ok conversationID =>
            let newRow : ConversationRow :=
              { userID := userID, chatJID := chatJID, chatwootConversationID := conversationID,
                chatwootContactID := contactID, chatwootInboxID := inboxID }
            let db1 :=
              if db.insertOk then
                { db with chatwootConversations := db.chatwootConversations ++ [newRow] }
              else db
            let st2 : ServiceState := { st with conversationCache := assocStore st.conversationCache cacheKey conversationID }
            { result := Except.ok conversationID, state := st2, db := db1,
              calls := createCall, dbQueried := true }

/-- File-name selection of `sendMediaMessage` (part_002:435-460). -/
def mediaFileName (mediaType evtID mimeType docFileName : String) : String :=
  if mediaType = "image" then
    if mimeType = "image/png" then evtID ++ ".png" else evtID ++ ".jpg"
  else if mediaType = "video" then evtID ++ ".mp4"
  else if mediaType = "audio" then
    if mimeType = "audio/mpeg" then evtID ++ ".mp3" else evtID ++ ".ogg"
  else if mediaType = "document" then
    if docFileName = "" then evtID ++ ".pdf" else docFileName
  else ""

/-- `sendMediaMessage` (part_002:431-483): download the media from
WhatsApp, then post it to Chatwoot as a multipart message.  The WhatsApp
download is not a remote Chatwoot API call and is not traced. -/
def sendMediaMessage (env : RemoteEnv) (evt : MessageEvent) (conversationID : Int)
    (msgType sourceID mimeType caption mediaType : String) (media : MediaInfo) :
    Except String Unit × List RemoteCall :=
  let fileName := mediaFileName mediaType evt.id mimeType media.fileName
  match env.download media with
  | Except.error e => (Except.error ("failed to download media: " ++ e), [])
  | Except.ok data =>
      match env.sendMediaMessage conversationID msgType data fileName mimeType caption sourceID with
      | Except.error e =>
          (Except.error ("failed to send media to chatwoot: " ++ e),
           [RemoteCall.sendMedia conversationID msgType fileName mimeType caption sourceID])
      | Except.ok _ =>
          (Except.ok (),
           [RemoteCall.sendMedia conversationID msgType fileName mimeType caption sourceID])

/-- `sendMessageToChatwoot` (part_002:395-428): source id `WAID:<msg id>`;
media branches for image/video/audio/document; otherwise a plain text
message; a message with neither is a silent no-op. -/
def sendMessageToChatwoot (env : RemoteEnv) (evt : MessageEvent) (conversationID : Int)
    (msgType : String) : Except String Unit × List RemoteCall :=
  let sourceID := "WAID:" ++ evt.id
  let textContent :=
    if evt.message.conversation = "" && evt.message.extendedTextMessage.isSome then
      evt.message.extendedText
    else evt.message.conversation
  match evt.message.imageMessage with
  | some img =>
      sendMediaMessage env evt conversationID msgType sourceID img.mimetype img.caption "image" img
  | none =>
  match evt.message.videoMessage with
  | some vid =>
      sendMediaMessage env evt conversationID msgType sourceID vid.mimetype vid.caption "video" vid
  | none =>
  match evt.message.audioMessage with
  | some aud =>
      sendMediaMessage env evt conversationID msgType sourceID aud.mimetype "" "audio" aud
  | none =>
  match evt.message.documentMessage with
  | some doc =>
      sendMediaMessage env evt conversationID msgType sourceID doc.mimetype doc.caption "document" doc
  | none =>
    if textContent ≠ "" then
      match env.createMessage conversationID msgType textContent false sourceID with
      | Except.ok _ =>
          (Except.ok (), [RemoteCall.createMessage conversationID msgType textContent false sourceID])
      | Except.error e =>
          (Except.error e, [RemoteCall.createMessage conversationID msgType textContent false sourceID])
    else (Except.ok (), [])

/-- `s.dedupeCache.LoadOrStore(evt.Info.ID, time.Now())`: returns whether
the id was already present, and the (possibly extended) cache. -/
def dedupeLoadOrStore (cache : List (String × Nat)) (id : String) (now : Nat) :
    Bool × List (String × Nat) :=
  match assocLookup cache id with
  | some _ => (true, cache)
  | none => (false, assocStore cache id now)

/-- Outcome of one `HandleIncomingMessage` call. -/
structure HandleResult where
  result : Except String Unit
  state : ServiceState
  db : DbState
  calls : List RemoteCall
deriving Repr

/-- `HandleIncomingMessage` (part_002:106-198): dedup test-and-set, noise
filter, config load (absent or disabled ⇒ silent no-op), identity
resolution, E.164 normalization, ensure contact, ensure conversation,
deliver content. -/
def HandleIncomingMessage (userID : String) (evt : MessageEvent) (now : Nat)
    (st : ServiceState) (db : DbState) (env : RemoteEnv) : HandleResult :=
  match dedupeLoadOrStore st.dedupeCache evt.id now with
  | (true, _) => { result := Except.ok (), state := st, db := db, calls := [] }
  | (false, cache1) =>
    let st1 := { st with dedupeCache := cache1 }
    if shouldSkipMessage evt then
      { result := Except.ok (), state := st1, db := db, calls := [] }
    else
      match db.chatwootConfig with
      | none => { result := Except.ok (), state := st1, db := db, calls := [] }
      | some config =>
        if !config.enabled then
          { result := Except.ok (), state := st1, db := db, calls := [] }
        else
          let chatJID := evt.chatJID
          let senderJID := if evt.isGroup then evt.senderJID else chatJID
          let contactName :=
            if evt.pushName = "" then localPart senderJID else evt.pushName
          let msgType := if evt.isFromMe then "outgoing" else "incoming"
          let phoneNumber := formatToE164 (localPart senderJID)
          match ensureContact env config phoneNumber contactName senderJID with
          | (Except.error e, calls1) =>
              { result := Except.error ("failed to ensure contact: " ++ e),
                state := st1, db := db, calls := calls1 }
          | (Except.ok contactID, calls1) =>
            let er := ensureConversation userID env config contactID chatJID st1 db
            match er.result with
            | Except.error e =>
                { result := Except.error ("failed to ensure conversation: " ++ e),
                  state := er.state, db := er.db, calls := calls1 ++ er.calls }
            | Except.ok conversationID =>
              match sendMessageToChatwoot env evt conversationID msgType with
              | (Except.error e, calls3) =>
                  { result := Except.error ("failed to send message to chatwoot: " ++ e),
                    state := er.state, db := er.db, calls := calls1 ++ er.calls ++ calls3 }
              | (Except.ok _, calls3) =>
                  { result := Except.ok (), state := er.state, db := er.db,
                    calls := calls1 ++ er.calls ++ calls3 }

/-! ## Dedupe cache garbage collection (`cleanupDedupeCache`, part_002:38-56) -/

/-- The cleanup ticker interval, `time.NewTicker(10 * time.Minute)`, in seconds. -/
def dedupeCleanupIntervalSeconds : Nat := 600

/-- The dedupe expiry threshold, `30 * time.Minute`, in seconds. -/
def dedupeExpirySeconds : Nat := 1800

/-- One pass of the cleanup loop body: delete every entry whose age exceeds
30 minutes (`if now.Sub(timestamp) > 30*time.Minute { delete }`). -/
def cleanupDedupeCachePass (now : Nat) (cache : List (String × Nat)) : List (String × Nat) :=
  cache.filter fun entry => !(decide (dedupeExpirySeconds < now - entry.2))

/-! ## Chatwoot webhook handler (`HandleChatwootWebhook`, handlers_chatwoot.go)

The repository carries two copies of this handler; the one in
`handlers_chatwoot.go` is the current one (it sends synchronously and
stores the conversation mapping before sending) and is the one embedded
here.  Token resolution and JSON decoding are modelled by `Option`
parameters (`none` = unknown token / malformed body). -/

structure CwAttachment where
  dataURL : String
  fileType : String
deriving Repr, DecidableEq

structure CwMessage where
  id : Int
  sourceID : String
  attachments : List CwAttachment
deriving Repr, DecidableEq

structure CwSender where
  id : Int
  identifier : String
  phoneNumber : String
deriving Repr, DecidableEq

structure CwConversation where
  id : Int
  status : String
  metaSender : CwSender
  messages : List CwMessage
deriving Repr, DecidableEq

/-- `ChatwootWebhookPayload` (handlers_chatwoot.go:19-53); `isPrivate`
models the `Private` field (`private` is a Lean keyword). -/
structure ChatwootWebhookPayload where
  event : String
  messageType : String
  id : Int
  content : String
  isPrivate : Bool
  conversation : CwConversation
  inboxID : Int
deriving Repr, DecidableEq

/-- Result of one `waClient.SendMessage` call. -/
inductive SendOutcome where
  | sendOk (respID : String)
  | sendErr (msg : String)
deriving Repr, DecidableEq

def SendOutcome.isOk : SendOutcome → Bool
  | SendOutcome.sendOk _ => true
  | SendOutcome.sendErr _ => false

/-- The tenant's WhatsApp client as seen by the webhook handler:
presence/login/connection flags and the outcome of the k-th send call. -/
structure WaEnv where
  clientPresent : Bool
  loggedIn : Bool
  connected : Bool
  send : Nat → SendOutcome

/-- Observable outcome of one webhook invocation: HTTP status, JSON body
(as a field map), the sends performed in order (text sent, with the
result), the WhatsApp message ids stored into `messageDedupeCache`, and
whether `StoreConversationFromWebhook` was invoked. -/
structure WebhookOutcome where
  status : Nat
  body : List (String × String)
  sends : List (String × SendOutcome)
  dedupeStored : List String
  convStored : Bool
deriving Repr

/-- The attachment send loop (handlers_chatwoot.go:198-226): for each
attachment build the caption (content, attachment URL appended after a
blank line; the URL alone when content is empty), send it, abort with a 500
on the first failure, and store each successful send id in the dedupe
cache. -/
def sendAttachmentsLoop (wa : WaEnv) (content : String) :
    List CwAttachment → Nat → List (String × SendOutcome) → List String →
      List (String × SendOutcome) × List String × Bool
  | [], _, sent, stored => (sent, stored, true)
  | att :: rest, k, sent, stored =>
      let caption := if content = "" then att.dataURL else content ++ "\n\n" ++ att.dataURL
      match wa.send k with
      | SendOutcome.sendErr m => (sent ++ [(caption, SendOutcome.sendErr m)], stored, false)
      | SendOutcome.sendOk respID =>
          sendAttachmentsLoop wa content rest (k + 1)
            (sent ++ [(caption, SendOutcome.sendOk respID)]) (stored ++ [respID])

/-- Delivery stage of `HandleChatwootWebhook`
(handlers_chatwoot.go:193-258): the first message whose id matches the
event and which carries attachments is sent attachment by attachment (500
on the first failure); otherwise a non-empty content is sent as one text
message (500 on failure, dedupe-store on success); an empty content sends
nothing; in every non-error case the handler answers 200 `success`. -/
def webhookDeliverStage (p : ChatwootWebhookPayload) (wa : WaEnv) (convStored : Bool) :
    WebhookOutcome :=
  match p.conversation.messages.find? (fun m => m.id == p.id && !m.attachments.isEmpty) with
  | some m =>
      match sendAttachmentsLoop wa p.content m.attachments 0 [] [] with
      | (sent, stored, false) =>
          { status := 500, body := [("error", "failed to send media")], sends := sent,
            dedupeStored := stored, convStored := convStored }
      | (sent, stored, true) =>
          { status := 200, body := [("status", "success")], sends := sent,
            dedupeStored := stored, convStored := convStored }
  | none =>
      if p.content ≠ "" then
        match wa.send 0 with
        | SendOutcome.sendErr m =>
            { status := 500, body := [("error", "failed to send message")],
              sends := [(p.content, SendOutcome.sendErr m)], dedupeStored := [],
              convStored := convStored }
        | SendOutcome.sendOk respID =>
            { status := 200, body := [("status", "success")],
              sends := [(p.content, SendOutcome.sendOk respID)],
              dedupeStored := [respID], convStored := convStored }
      else
        { status := 200, body := [("status", "success")], sends := [], dedupeStored := [],
          convStored := convStored }

/-- Connectivity stage of `HandleChatwootWebhook`
(handlers_chatwoot.go:172-191): the WhatsApp client must exist, be logged
in and be connected, else a 503 is returned before anything is sent. -/
def webhookConnectivityStage (p : ChatwootWebhookPayload) (wa : WaEnv) (convStored : Bool) :
    WebhookOutcome :=
  if !wa.clientPresent then
    { status := 503, body := [("error", "whatsapp client not ready")], sends := [],
      dedupeStored := [], convStored := convStored }
  else if !wa.loggedIn then
    { status := 503, body := [("error", "whatsapp not logged in")], sends := [],
      dedupeStored := [], convStored := convStored }
  else if !wa.connected then
    { status := 503, body := [("error", "whatsapp disconnected")], sends := [],
      dedupeStored := [], convStored := convStored }
  else webhookDeliverStage p wa convStored

/-- `HandleChatwootWebhook` (handlers_chatwoot.go:56-260). -/
def HandleChatwootWebhook (userID : Option String) (payload : Option ChatwootWebhookPayload)
    (wa : WaEnv) : WebhookOutcome :=
  match userID with
  | none =>
      { status := 401, body := [("error", "invalid token")], sends := [], dedupeStored := [],
        convStored := false }
  | some _ =>
    match payload with
    | none =>
        { status := 400, body := [("error", "invalid payload")], sends := [], dedupeStored := [],
          convStored := false }
    | some p =>
      if p.event ≠ "message_created" then
        { status := 200, body := [("status", "ignored"), ("reason", "not message_created")],
          sends := [], dedupeStored := [], convStored := false }
      else if p.messageType ≠ "outgoing" then
        { status := 200, body := [("status", "ignored"), ("reason", "not outgoing")],
          sends := [], dedupeStored := [], convStored := false }
      else if p.isPrivate then
        { status := 200, body := [("status", "ignored"), ("reason", "private note")],
          sends := [], dedupeStored := [], convStored := false }
      else
        let loopEcho :=
          match p.conversation.messages with
          | [] => false
          | firstMsg :: _ => goHasPre firstMsg.sourceID "WAID:" && firstMsg.id == p.id
        if loopEcho then
          { status := 200, body := [("status", "ignored"), ("reason", "loop prevention")],
            sends := [], dedupeStored := [], convStored := false }
        else
          let chatID :=
            if p.conversation.metaSender.identifier = "" then
              goTrimPre p.conversation.metaSender.phoneNumber "+"
            else localPart p.conversation.metaSender.identifier
          if chatID = "" then
            { status := 400, body := [("error", "no destination")], sends := [],
              dedupeStored := [], convStored := false }
          else
            webhookConnectivityStage p wa (p.conversation.id > 0)

/-! ## Configuration read path (`GetChatwootConfig`, part_000:55-115) -/

/-- The token mask: tokens longer than 4 characters are replaced by `****`
plus their last 4 characters; shorter tokens are left untouched
(part_000:82-85). -/
def maskToken (token : String) : String :=
  if token.length > 4 then "****" ++ String.mk (token.toList.drop (token.length - 4)) else token

/-- `ChatwootConfigResponse` (part_000:33-52). -/
structure ChatwootConfigResponse where
  userID : String
  accountID : String
  token : String
  url : String
  inboxID : Option Int
  nameInbox : String
  enabled : Bool
  autoCreate : Bool
  signMsg : Bool
  signDelimiter : String
  reopenConversation : Bool
  conversationPending : Bool
  mergeBrazilContacts : Bool
  organization : String
  logo : String
  webhookURL : String
  createdAt : String
  updatedAt : String
deriving Repr, DecidableEq

/-- The response `GetChatwootConfig` builds from the stored row
(part_000:77-111): every field is copied, except that the token is masked
and the webhook URL is derived from the request's base URL and the user's
own API token. -/
def GetChatwootConfigResponse (config : Config) (baseURL userToken : String) :
    ChatwootConfigResponse :=
  { userID := config.userID, accountID := config.accountID,
    token := maskToken config.token, url := config.url, inboxID := config.inboxID,
    nameInbox := config.nameInbox, enabled := config.enabled, autoCreate := config.autoCreate,
    signMsg := config.signMsg, signDelimiter := config.signDelimiter,
    reopenConversation := config.reopenConversation,
    conversationPending := config.conversationPending,
    mergeBrazilContacts := config.mergeBrazilContacts,
    organization := config.organization, logo := config.logo,
    webhookURL := baseURL ++ "/chatwoot/webhook/" ++ userToken,
    createdAt := config.createdAt, updatedAt := config.updatedAt }

/-! ## `FindContactByPhone` argument guard (`pkg/chatwoot/client.go:218-224`) -/

/-- The phone-normalization head of `Client.FindContactByPhone`: the Go
code reads `phone[0]` with no emptiness guard, so the empty string makes it
panic with an index-out-of-range error; `none` models that panic.  For a
non-empty argument the function prepends `+` unless it is already there. -/
def findContactByPhoneNormalized (phone : String) : Option String :=
  match phone.toList with
  | [] => none
  | c :: _ => some (if c = '+' then phone else "+" ++ phone)

/-! ## Spec-modelled echo-suppression wiring -/

/-- Modelled from the spec: the declaration of `messageDedupeCache` and the
WhatsApp event dispatcher that consults it before re-bridging an inbound
event are not under `src/` (only the stores in `handlers_chatwoot.go` are).
Per the spec, every outbound message id from the webhook path is
"registered in the Dedup Guard" — the same guard `HandleIncomingMessage`
consults — "so that when it is echoed back ... via the inbound path it is
suppressed".  This registers the ids stored by a webhook invocation in the
service's dedupe cache. -/
def registerOutboundIds (out : WebhookOutcome) (now : Nat) (st : ServiceState) : ServiceState :=
  { st with dedupeCache := out.dedupeStored.foldl (fun c i => assocStore c i now) st.dedupeCache }

/-! ## Claim C4 — delivery retry count and backoff -/

/-- C4: the delivery attempt budget is 1 when retry is globally disabled
and the configured retry count when enabled; with retries enabled and
count 3 against a target that always answers HTTP 500, the target is
called exactly 3 times and the loop sleeps `base * 2 ^ 0` seconds between
attempts 1 and 2 and `base * 2 ^ 1` seconds between attempts 2 and 3, with
no sleep before the first attempt; with retries globally disabled a
non-2xx response ends the loop after that one attempt whatever budget
remains, so a disabled delivery performs exactly one HTTP attempt. -/
theorem delivery_retry_count_and_backoff :
    (∀ cfg : RetryConfig,
      maxRetriesOf cfg = if cfg.webhookRetryEnabled then cfg.webhookRetryCount else 1)
    ∧ (∀ (base now : Nat) (responses : Nat → AttemptResult)
        (myurl userID bodyStr : String) (payload : List (String × String)) (key : List Nat),
        (∀ i, responses i = AttemptResult.httpStatus 500 bodyStr) →
        (callHookWithHmac myurl payload userID key ⟨true, 3, base⟩ responses now).1.attempts = 3
        ∧ (callHookWithHmac myurl payload userID key ⟨true, 3, base⟩ responses now).1.delays
            = [base * 2 ^ 0, base * 2 ^ 1])
    ∧ (∀ (base fuel i code : Nat) (responses : Nat → AttemptResult) (le : Option String)
        (bodyStr : String),
        responses i = AttemptResult.httpStatus code bodyStr → code < 200 ∨ 300 ≤ code →
        (webhookLoop responses false base (fuel + 1) i le).attempts = 1)
    ∧ (∀ (base n now : Nat) (responses : Nat → AttemptResult) (myurl userID : String)
        (payload : List (String × String)) (key : List Nat),
        (callHookWithHmac myurl payload userID key ⟨false, n, base⟩ responses now).1.attempts = 1) := by
  refine ⟨fun _ => rfl, ?_, ?_, ?_⟩
  · intro base now responses myurl userID bodyStr payload key h
    have hc : ¬(200 ≤ 500 ∧ 500 < 300) := by omega
    constructor <;>
      simp [callHookWithHmac, maxRetriesOf, webhookLoop, h, hc]
  · intro base fuel i code responses le bodyStr hr hcode
    have hc : ¬(200 ≤ code ∧ code < 300) := by omega
    simp [webhookLoop, hr, hc]
  · intro base n now responses myurl userID payload key
    cases hr : responses 0 with
    | transportError m =>
        simp [callHookWithHmac, maxRetriesOf, webhookLoop, hr]
    | httpStatus code bodyStr =>
        by_cases hc : 200 ≤ code ∧ code < 300 <;>
          simp [callHookWithHmac, maxRetriesOf, webhookLoop, hr, hc]

/-- Witness for C4 at concrete inputs. -/
theorem delivery_retry_count_and_backoff_witness :
    ((callHookWithHmac "http://t" [] "u1" [] ⟨true, 3, 7⟩
        (fun _ => AttemptResult.httpStatus 500 "x") 0).1.attempts = 3
      ∧ (callHookWithHmac "http://t" [] "u1" [] ⟨true, 3, 7⟩
          (fun _ => AttemptResult.httpStatus 500 "x") 0).1.delays = [7 * 2 ^ 0, 7 * 2 ^ 1])
    ∧ (webhookLoop (fun _ => AttemptResult.httpStatus 500 "x") false 7 (4 + 1) 0 none).attempts = 1
    ∧ (callHookWithHmac "http://t" [] "u1" [] ⟨false, 9, 7⟩
        (fun _ => AttemptResult.transportError "io") 0).1.attempts = 1 :=
  ⟨delivery_retry_count_and_backoff.2.1 7 0 _ "http://t" "u1" "x" [] [] (fun _ => rfl),
   delivery_retry_count_and_backoff.2.2.1 7 4 0 500 _ none "x" rfl (by omega),
   delivery_retry_count_and_backoff.2.2.2 7 9 0 _ "http://t" "u1" [] []⟩

/-! ## Claim C5 — dead-letter record on terminal failure -/

/-- C5 counterexample: the file variant does NOT return void to its
caller — against a target that always answers HTTP 500 it returns the
terminal error `webhook failed permanently: ...`, refuting the claim that
the delivery call returns no error to its caller. -/
theorem file_delivery_error_return_counterexample :
    (callHookFileWithHmac "http://target" [] "u1" "/tmp/f.bin" [] ⟨true, 2, 1⟩
        (fun _ => AttemptResult.httpStatus 500 "") 0).2.2
      = some "webhook failed permanently: unexpected status code: 500. Body: " := by decide

/-- C5 (amended): when the retry loop ends with a last error, both
variants build a dead-letter record with the target URL, the final
payload, the user id, the hex-encoded encrypted signing key, the attempt
timestamp and the last error message (plus, file variant only, the file
path) and hand it to the dead-letter publisher; the data variant returns
nothing to its caller, while the file variant returns the terminal
`webhook failed permanently` error. -/
theorem dead_letter_on_terminal_failure (myurl userID file : String)
    (payload : List (String × String)) (key : List Nat) (cfg : RetryConfig)
    (responses : Nat → AttemptResult) (now : Nat) (e : String)
    (hfail : (webhookLoop responses cfg.webhookRetryEnabled cfg.webhookRetryDelaySeconds
        (maxRetriesOf cfg) 0 none).lastError = some e) :
    callHookWithHmac myurl payload userID key cfg responses now
      = (webhookLoop responses cfg.webhookRetryEnabled cfg.webhookRetryDelaySeconds
          (maxRetriesOf cfg) 0 none,
         some { url := myurl, payload := payload, userID := userID,
                encryptedHmacKey := hexEncode key, attemptTime := now, errorMessage := e })
    ∧ callHookFileWithHmac myurl payload userID file key cfg responses now
      = (webhookLoop responses cfg.webhookRetryEnabled cfg.webhookRetryDelaySeconds
          (maxRetriesOf cfg) 0 none,
         some { url := myurl, payload := assocStore payload "file" file, userID := userID,
                encryptedHmacKey := hexEncode key, filePath := file,
                attemptTime := now, errorMessage := e },
         some ("webhook failed permanently: " ++ e)) := by
  constructor <;> simp [callHookWithHmac, callHookFileWithHmac, hfail]

/-- Witness for C5's amended theorem at concrete inputs. -/
theorem dead_letter_on_terminal_failure_witness :
    callHookWithHmac "http://t" [("k", "v")] "u1" [171] ⟨true, 2, 1⟩
        (fun _ => AttemptResult.httpStatus 500 "b") 0
      = (webhookLoop (fun _ => AttemptResult.httpStatus 500 "b") true 1 (maxRetriesOf ⟨true, 2, 1⟩) 0 none,
         some { url := "http://t", payload := [("k", "v")], userID := "u1",
                encryptedHmacKey := hexEncode [171], attemptTime := 0,
                errorMessage := "unexpected status code: 500. Body: b" })
    ∧ callHookFileWithHmac "http://t" [("k", "v")] "u1" "/tmp/f" [171] ⟨true, 2, 1⟩
        (fun _ => AttemptResult.httpStatus 500 "b") 0
      = (webhookLoop (fun _ => AttemptResult.httpStatus 500 "b") true 1 (maxRetriesOf ⟨true, 2, 1⟩) 0 none,
         some { url := "http://t", payload := assocStore [("k", "v")] "file" "/tmp/f",
                userID := "u1", encryptedHmacKey := hexEncode [171], filePath := "/tmp/f",
                attemptTime := 0,
                errorMessage := "unexpected status code: 500. Body: b" },
         some ("webhook failed permanently: " ++ "unexpected status code: 500. Body: b")) :=
  dead_letter_on_terminal_failure "http://t" "u1" "/tmp/f" [("k", "v")] [171] ⟨true, 2, 1⟩
    (fun _ => AttemptResult.httpStatus 500 "b") 0 "unexpected status code: 500. Body: b" (by decide)

/-! ## Claim C7 — token masking in the configuration read response -/

/-- A stored configuration whose remote API token has only 4 characters. -/
def shortTokenConfig : Config :=
  { userID := "u1", accountID := "1", token := "abcd", url := "http://cw", inboxID := some 7,
    nameInbox := "Inbox", enabled := true, autoCreate := false, signMsg := false,
    reopenConversation := false, conversationPending := false, mergeBrazilContacts := false,
    signDelimiter := "\\n", organization := "", logo := "", createdAt := "", updatedAt := "" }

/-- C7 counterexample: for a stored token of 4 characters the
configuration-read response returns the complete stored token unmasked,
refuting the claim that the token field is always masked so that the
complete stored token is not revealed. -/
theorem token_masking_counterexample :
    (GetChatwootConfigResponse shortTokenConfig "http://h" "apitok").token
        = shortTokenConfig.token
    ∧ shortTokenConfig.token = "abcd" := by
  constructor <;> decide

/-- C7 (amended): only tokens longer than 4 characters are masked in the
configuration-read response — such a token is replaced by the 8-character
string `****` plus its last 4 characters, so a stored token of length
other than 8 is never revealed in full; tokens of 4 or fewer characters
are echoed back verbatim. -/
theorem token_masking_amended (config : Config) (baseURL userToken : String) :
    (config.token.length ≤ 4 →
      (GetChatwootConfigResponse config baseURL userToken).token = config.token)
    ∧ (4 < config.token.length →
      (GetChatwootConfigResponse config baseURL userToken).token
        = "****" ++ String.mk (config.token.toList.drop (config.token.length - 4))
      ∧ (GetChatwootConfigResponse config baseURL userToken).token.length = 8
      ∧ (config.token.length ≠ 8 →
          (GetChatwootConfigResponse config baseURL userToken).token ≠ config.token)) := by
  constructor
  · intro h
    have hng : ¬(config.token.length > 4) := by omega
    simp [GetChatwootConfigResponse, maskToken, hng]
  · intro h
    have hmask : (GetChatwootConfigResponse config baseURL userToken).token
        = "****" ++ String.mk (config.token.toList.drop (config.token.length - 4)) := by
      simp [GetChatwootConfigResponse, maskToken, h]
    have hlist : config.token.toList.length = config.token.length := rfl
    have hdl : (String.mk (config.token.toList.drop (config.token.length - 4))).length
        = config.token.toList.length - (config.token.length - 4) := by
      show (config.token.toList.drop (config.token.length - 4)).length = _
      rw [List.length_drop]
    have hlen : (GetChatwootConfigResponse config baseURL userToken).token.length = 8 := by
      rw [hmask, String.length_append, hdl, hlist]
      have h4 : ("****" : String).length = 4 := rfl
      omega
    refine ⟨hmask, hlen, ?_⟩
    intro hne heq
    rw [heq] at hlen
    exact hne hlen

/-- A stored configuration with an 11-character token. -/
def longTokenConfig : Config :=
  { shortTokenConfig with token := "secrettoken" }

/-- Witness for C7's amended theorem at concrete inputs. -/
theorem token_masking_amended_witness :
    (GetChatwootConfigResponse longTokenConfig "http://h" "apitok").token
      = "****" ++ String.mk (longTokenConfig.token.toList.drop (longTokenConfig.token.length - 4))
    ∧ (GetChatwootConfigResponse longTokenConfig "http://h" "apitok").token.length = 8
    ∧ (longTokenConfig.token.length ≠ 8 →
        (GetChatwootConfigResponse longTokenConfig "http://h" "apitok").token
          ≠ longTokenConfig.token) :=
  (token_masking_amended longTokenConfig "http://h" "apitok").2 (by decide)

/-! ## Claim C10 — FindContactByPhone needs a non-empty phone -/

/-- `(a ++ b).data = a.data ++ b.data` -/
theorem stringDataAppend (a b : String) : (a ++ b).data = a.data ++ b.data := by
  obtain ⟨la⟩ := a
  obtain ⟨lb⟩ := b
  rfl

/-- C10: `Client.FindContactByPhone` indexes `phone[0]` with no emptiness
guard, so the empty string makes it panic (modelled by `none`) and a
non-empty argument is a genuine precondition; on the inbound bridge path
that precondition always holds because `formatToE164` always produces a
string whose first character is `+` (so in particular non-empty), on which
`FindContactByPhone` does not panic and keeps the phone unchanged. -/
theorem findContactByPhone_requires_nonempty :
    findContactByPhoneNormalized "" = none
    ∧ ∀ phone : String,
        (formatToE164 phone).toList.head? = some (Char.ofNat 43)
        ∧ findContactByPhoneNormalized (formatToE164 phone) = some (formatToE164 phone) := by
  constructor
  · rfl
  · intro phone
    have hform : formatToE164 phone
        = "+" ++ String.mk ((goTrimPre phone "+").toList.filter fun c => c.isDigit) := rfl
    have hdata : (formatToE164 phone).toList
        = Char.ofNat 43 :: ((goTrimPre phone "+").toList.filter fun c => c.isDigit) := by
      rw [hform]
      show ("+" ++ String.mk _).data = _
      rw [stringDataAppend]
      rfl
    constructor
    · rw [hdata]
      rfl
    · unfold findContactByPhoneNormalized
      rw [hdata]
      simp

/-- Witness for C10 at a concrete phone number. -/
theorem findContactByPhone_requires_nonempty_witness :
    ((formatToE164 "55 11 99999-9999").toList.head? = some (Char.ofNat 43)
      ∧ findContactByPhoneNormalized (formatToE164 "55 11 99999-9999")
          = some (formatToE164 "55 11 99999-9999"))
    ∧ findContactByPhoneNormalized "" = none :=
  ⟨findContactByPhone_requires_nonempty.2 "55 11 99999-9999",
   findContactByPhone_requires_nonempty.1⟩

/-! ## Shared concrete fixtures for witnesses -/

/-- A plain text-only WhatsApp message body. -/
def textMessage (t : String) : MsgContent :=
  { protocolMessage := false, reactionMessage := false, pollCreationMessage := false,
    pollUpdateMessage := false, keepInChatMessage := false, conversation := t,
    extendedTextMessage := none, imageMessage := none, videoMessage := none,
    audioMessage := none, documentMessage := none, stickerMessage := none }

/-- A direct-chat inbound text event with the given message id. -/
def sampleTextEvent (msgID : String) : MessageEvent :=
  { id := msgID, pushName := "Alice", senderJID := "5511999999999@s.whatsapp.net",
    chatJID := "5511999999999@s.whatsapp.net", isGroup := false, isFromMe := false,
    message := textMessage "Hello" }

/-- An enabled tenant bridge configuration with inbox 7. -/
def sampleConfig : Config :=
  { userID := "u1", accountID := "1", token := "cw-token-1234", url := "http://cw",
    inboxID := some 7, nameInbox := "Inbox", enabled := true, autoCreate := false,
    signMsg := false, reopenConversation := false, conversationPending := false,
    mergeBrazilContacts := false, signDelimiter := "\\n", organization := "", logo := "",
    createdAt := "", updatedAt := "" }

/-- A database with the sample configuration, no cached conversations and
working inserts. -/
def sampleDb : DbState :=
  { chatwootConfig := some sampleConfig, chatwootConversations := [], insertOk := true }

/-- A remote environment where every Chatwoot call succeeds. -/
def okEnv : RemoteEnv :=
  { findContactByPhone := fun _ => Except.ok 42,
    createContact := fun _ _ _ _ _ => Except.ok 42,
    createConversation := fun _ _ _ _ => Except.ok 314,
    createMessage := fun _ _ _ _ _ => Except.ok 9000,
    download := fun _ => Except.ok [1, 2, 3],
    sendMediaMessage := fun _ _ _ _ _ _ _ => Except.ok 9001 }

/-! ## Claim C8 — noise filter performs zero remote calls -/

/-- C8: for every event that is a protocol message, a reaction, a
poll-create, a poll-update, a keep-in-chat marker, or carries neither text
nor a recognized media kind, `HandleIncomingMessage` returns success and
performs zero remote API calls. -/
theorem noise_filter_zero_calls (userID : String) (evt : MessageEvent) (now : Nat)
    (st : ServiceState) (db : DbState) (env : RemoteEnv)
    (h : evt.message.protocolMessage = true ∨ evt.message.reactionMessage = true
      ∨ evt.message.pollCreationMessage = true ∨ evt.message.pollUpdateMessage = true
      ∨ evt.message.keepInChatMessage = true
      ∨ (evt.message.conversation = "" ∧ evt.message.extendedText = ""
          ∧ evt.message.imageMessage = none ∧ evt.message.videoMessage = none
          ∧ evt.message.audioMessage = none ∧ evt.message.documentMessage = none
          ∧ evt.message.stickerMessage = none)) :
    (HandleIncomingMessage userID evt now st db env).result = Except.ok ()
    ∧ (HandleIncomingMessage userID evt now st db env).calls = [] := by
  have hskip : shouldSkipMessage evt = true := by
    unfold shouldSkipMessage
    rcases h with h | h | h | h | h | ⟨h1, h2, h3, h4, h5, h6, h7⟩
    · simp [h]
    · simp [h]
    · simp [h]
    · simp [h]
    · simp [h]
    · simp [h1, h2, h3, h4, h5, h6, h7]
  unfold HandleIncomingMessage dedupeLoadOrStore
  cases hl : assocLookup st.dedupeCache evt.id <;> simp [hl, hskip]

/-- A protocol-control message event (noise). -/
def protocolEvent : MessageEvent :=
  { sampleTextEvent "PROTO1" with
    message := { textMessage "" with protocolMessage := true } }

/-- Witness for C8 at a concrete protocol-message event. -/
theorem noise_filter_zero_calls_witness :
    (HandleIncomingMessage "u1" protocolEvent 0
        { dedupeCache := [], conversationCache := [] } sampleDb okEnv).result = Except.ok ()
    ∧ (HandleIncomingMessage "u1" protocolEvent 0
        { dedupeCache := [], conversationCache := [] } sampleDb okEnv).calls = [] :=
  noise_filter_zero_calls "u1" protocolEvent 0
    { dedupeCache := [], conversationCache := [] } sampleDb okEnv (Or.inl rfl)

/-! ## Claim C3 — dedup aging and cleanup -/

/-- C3 counterexample: an identifier inserted at time 0 and seen again 35
minutes later — older than the 30-minute threshold but not yet removed by
a cleanup pass — is still treated as already processed by
`HandleIncomingMessage` (zero remote calls), even though the same event on
an empty cache would be bridged; this refutes the claim that an identifier
is treated as already processed exactly while it is present AND younger
than 30 minutes. -/
theorem dedupe_age_counterexample :
    dedupeExpirySeconds < 2100 - 0
    ∧ (HandleIncomingMessage "u1" (sampleTextEvent "MSG1") 2100
        { dedupeCache := [("MSG1", 0)], conversationCache := [] } sampleDb okEnv).calls = []
    ∧ (HandleIncomingMessage "u1" (sampleTextEvent "MSG1") 2100
        { dedupeCache := [("MSG1", 0)], conversationCache := [] } sampleDb okEnv).result
        = Except.ok ()
    ∧ (HandleIncomingMessage "u1" (sampleTextEvent "MSG1") 2100
        { dedupeCache := [], conversationCache := [] } sampleDb okEnv).calls ≠ [] := by
  refine ⟨by decide, by decide, rfl, by decide⟩

/-- C3 (amended): an identifier is treated as already processed exactly
while it is PRESENT in the dedup cache, regardless of age; the cleanup
pass — a 10-minute ticker — deletes every entry older than 30 minutes, so
an identifier aged past 30 minutes is removed by the next cleanup pass and
only after that removal is it eligible for reprocessing. -/
theorem dedupe_expiry_amended :
    dedupeCleanupIntervalSeconds = 600
    ∧ dedupeExpirySeconds = 1800
    ∧ (∀ (cache : List (String × Nat)) (id : String) (now2 : Nat),
        (dedupeLoadOrStore cache id now2).1 = true ↔ (assocLookup cache id).isSome = true)
    ∧ (∀ (cache : List (String × Nat)) (id : String) (ts now : Nat),
        dedupeExpirySeconds < now - ts → (id, ts) ∉ cleanupDedupeCachePass now cache)
    ∧ (∀ (cache : List (String × Nat)) (id : String) (now : Nat),
        (∀ ts, (id, ts) ∈ cache → dedupeExpirySeconds < now - ts) →
        assocLookup (cleanupDedupeCachePass now cache) id = none
        ∧ ∀ now2, (dedupeLoadOrStore (cleanupDedupeCachePass now cache) id now2).1 = false)
    ∧ (HandleIncomingMessage "u1" (sampleTextEvent "MSG1") 2100
        { dedupeCache := cleanupDedupeCachePass 2100 [("MSG1", 0)], conversationCache := [] }
        sampleDb okEnv).calls ≠ [] := by
  refine ⟨rfl, rfl, ?_, ?_, ?_, by decide⟩
  · intro cache id now2
    unfold dedupeLoadOrStore
    cases hl : assocLookup cache id <;> simp [hl]
  · intro cache id ts now h
    simp [cleanupDedupeCachePass, List.mem_filter, h]
  · intro cache id now h
    have hlook : assocLookup (cleanupDedupeCachePass now cache) id = none := by
      induction cache with
      | nil => rfl
      | cons hd tl ih =>
          obtain ⟨k, ts⟩ := hd
          have htl : ∀ ts2, (id, ts2) ∈ tl → dedupeExpirySeconds < now - ts2 :=
            fun ts2 hm => h ts2 (List.mem_cons_of_mem _ hm)
          by_cases hk : k = id
          · subst hk
            have hold := h ts (List.mem_cons_self _ _)
            simp only [cleanupDedupeCachePass, List.filter_cons] at ih ⊢
            simp [hold, ih htl]
          · by_cases hp : dedupeExpirySeconds < now - ts
            · simp only [cleanupDedupeCachePass, List.filter_cons] at ih ⊢
              simp [hp, ih htl]
            · simp only [cleanupDedupeCachePass, List.filter_cons] at ih ⊢
              simp [hp, assocLookup, hk, ih htl]
    refine ⟨hlook, fun now2 => ?_⟩
    unfold dedupeLoadOrStore
    simp [hlook]

/-- Witness for C3's amended theorem at concrete inputs. -/
theorem dedupe_expiry_amended_witness :
    ((dedupeLoadOrStore [("MSG1", 0)] "MSG1" 2100).1 = true
      ↔ (assocLookup [("MSG1", 0)] "MSG1").isSome = true)
    ∧ ("MSG1", 0) ∉ cleanupDedupeCachePass 2100 [("MSG1", 0)]
    ∧ (assocLookup (cleanupDedupeCachePass 2100 [("MSG1", 0)]) "MSG1" = none
        ∧ ∀ now2, (dedupeLoadOrStore (cleanupDedupeCachePass 2100 [("MSG1", 0)]) "MSG1" now2).1
            = false) :=
  ⟨dedupe_expiry_amended.2.2.1 [("MSG1", 0)] "MSG1" 2100,
   dedupe_expiry_amended.2.2.2.1 [("MSG1", 0)] "MSG1" 0 2100 (by decide),
   dedupe_expiry_amended.2.2.2.2.1 [("MSG1", 0)] "MSG1" 2100
     (by intro ts hm; simp at hm; subst hm; decide)⟩

/-! ## Claim C2 — idempotence of inbound dedup -/

def isCreateMessageCall : RemoteCall → Bool
  | RemoteCall.createMessage _ _ _ _ _ => true
  | _ => false

/-- Number of remote message-creation calls in a trace. -/
def countCreateMessage (calls : List RemoteCall) : Nat := calls.countP isCreateMessageCall

/-- C2: delivering the same message identifier to `HandleIncomingMessage`
twice (within the dedup window, i.e. while the first entry is still
cached) results in exactly one remote message-creation call: the first
call test-and-sets the identifier in the dedup guard and bridges the text,
the second call returns success with zero remote calls. -/
theorem inbound_dedup_idempotent (userID : String) (evt : MessageEvent) (t : String)
    (now1 now2 : Nat) (st : ServiceState) (db : DbState) (env : RemoteEnv)
    (config : Config) (contactID conversationID mid : Int)
    (hmsg : evt.message = textMessage t) (ht : t ≠ "")
    (hdedup : assocLookup st.dedupeCache evt.id = none)
    (hcfg : db.chatwootConfig = some config) (hen : config.enabled = true)
    (hgroup : evt.isGroup = false) (hme : evt.isFromMe = false)
    (hfind : env.findContactByPhone (formatToE164 (localPart evt.chatJID))
      = Except.ok contactID)
    (hmem : assocLookup st.conversationCache (userID ++ ":" ++ evt.chatJID)
      = some conversationID)
    (hcreate : env.createMessage conversationID "incoming" t false ("WAID:" ++ evt.id)
      = Except.ok mid) :
    (HandleIncomingMessage userID evt now1 st db env).result = Except.ok ()
    ∧ countCreateMessage (HandleIncomingMessage userID evt now1 st db env).calls = 1
    ∧ (HandleIncomingMessage userID evt now2
        (HandleIncomingMessage userID evt now1 st db env).state
        (HandleIncomingMessage userID evt now1 st db env).db env).result = Except.ok ()
    ∧ (HandleIncomingMessage userID evt now2
        (HandleIncomingMessage userID evt now1 st db env).state
        (HandleIncomingMessage userID evt now1 st db env).db env).calls = []
    ∧ countCreateMessage ((HandleIncomingMessage userID evt now1 st db env).calls
        ++ (HandleIncomingMessage userID evt now2
              (HandleIncomingMessage userID evt now1 st db env).state
              (HandleIncomingMessage userID evt now1 st db env).db env).calls) = 1 := by
  have hskip : shouldSkipMessage evt = false := by
    simp [shouldSkipMessage, hmsg, textMessage, MsgContent.extendedText, ht]
  have hr1 : HandleIncomingMessage userID evt now1 st db env
      = { result := Except.ok (),
          state := { st with dedupeCache := assocStore st.dedupeCache evt.id now1 },
          db := db,
          calls := [RemoteCall.findContact (formatToE164 (localPart evt.chatJID)),
                    RemoteCall.createMessage conversationID "incoming" t false
                      ("WAID:" ++ evt.id)] } := by
    unfold HandleIncomingMessage dedupeLoadOrStore ensureContact ensureConversation
      sendMessageToChatwoot
    simp [hdedup, hskip, hcfg, hen, hgroup, hme, hfind, hmem, hcreate, hmsg, textMessage, ht]
  have hr2 : HandleIncomingMessage userID evt now2
      { st with dedupeCache := assocStore st.dedupeCache evt.id now1 } db env
      = { result := Except.ok (),
          state := { st with dedupeCache := assocStore st.dedupeCache evt.id now1 },
          db := db, calls := [] } := by
    unfold HandleIncomingMessage dedupeLoadOrStore
    simp [assocLookup_assocStore_self]
  rw [hr1]
  simp only []
  rw [hr2]
  simp [countCreateMessage, isCreateMessageCall, List.countP_cons, List.countP_nil]

/-- Witness for C2 at concrete inputs: the sample text event processed
twice against the all-success environment with a cached conversation. -/
theorem inbound_dedup_idempotent_witness :
    (HandleIncomingMessage "u1" (sampleTextEvent "W1") 10
        { dedupeCache := [], conversationCache := [("u1:5511999999999@s.whatsapp.net", 314)] }
        sampleDb okEnv).result = Except.ok ()
    ∧ countCreateMessage (HandleIncomingMessage "u1" (sampleTextEvent "W1") 10
        { dedupeCache := [], conversationCache := [("u1:5511999999999@s.whatsapp.net", 314)] }
        sampleDb okEnv).calls = 1
    ∧ (HandleIncomingMessage "u1" (sampleTextEvent "W1") 20
        (HandleIncomingMessage "u1" (sampleTextEvent "W1") 10
          { dedupeCache := [], conversationCache := [("u1:5511999999999@s.whatsapp.net", 314)] }
          sampleDb okEnv).state
        (HandleIncomingMessage "u1" (sampleTextEvent "W1") 10
          { dedupeCache := [], conversationCache := [("u1:5511999999999@s.whatsapp.net", 314)] }
          sampleDb okEnv).db okEnv).result = Except.ok ()
    ∧ (HandleIncomingMessage "u1" (sampleTextEvent "W1") 20
        (HandleIncomingMessage "u1" (sampleTextEvent "W1") 10
          { dedupeCache := [], conversationCache := [("u1:5511999999999@s.whatsapp.net", 314)] }
          sampleDb okEnv).state
        (HandleIncomingMessage "u1" (sampleTextEvent "W1") 10
          { dedupeCache := [], conversationCache := [("u1:5511999999999@s.whatsapp.net", 314)] }
          sampleDb okEnv).db okEnv).calls = []
    ∧ countCreateMessage ((HandleIncomingMessage "u1" (sampleTextEvent "W1") 10
          { dedupeCache := [], conversationCache := [("u1:5511999999999@s.whatsapp.net", 314)] }
          sampleDb okEnv).calls
        ++ (HandleIncomingMessage "u1" (sampleTextEvent "W1") 20
              (HandleIncomingMessage "u1" (sampleTextEvent "W1") 10
                { dedupeCache := [],
                  conversationCache := [("u1:5511999999999@s.whatsapp.net", 314)] }
                sampleDb okEnv).state
              (HandleIncomingMessage "u1" (sampleTextEvent "W1") 10
                { dedupeCache := [],
                  conversationCache := [("u1:5511999999999@s.whatsapp.net", 314)] }
                sampleDb okEnv).db okEnv).calls) = 1 :=
  inbound_dedup_idempotent "u1" (sampleTextEvent "W1") "Hello" 10 20
    { dedupeCache := [], conversationCache := [("u1:5511999999999@s.whatsapp.net", 314)] }
    sampleDb okEnv sampleConfig 42 314 9000
    rfl (by decide) rfl rfl rfl rfl rfl rfl (by decide) rfl

/-! ## Claim C9 — conversation cache single-creation -/

def isCreateConversationCall : RemoteCall → Bool
  | RemoteCall.createConversation _ _ _ _ => true
  | _ => false

/-- Number of remote conversation-creation calls in a trace. -/
def countCreateConversation (calls : List RemoteCall) : Nat :=
  calls.countP isCreateConversationCall

/-- Total number of remote conversation-creation calls over a run of
`ensureConversation` outcomes. -/
def totalCreates (rs : List EnsureConvResult) : Nat :=
  (rs.map fun r => countCreateConversation r.calls).sum

/-- `n` sequential calls of `ensureConversation` for the same
(tenant, chat) pair, threading the caches. -/
def iterateEnsure (userID : String) (env : RemoteEnv) (config : Config) (contactID : Int)
    (chatJID : String) : Nat → ServiceState → DbState → List EnsureConvResult
  | 0, _, _ => []
  | n + 1, st, db =>
      let r := ensureConversation userID env config contactID chatJID st db
      r :: iterateEnsure userID env config contactID chatJID n r.state r.db

/-- A memory-tier hit returns immediately: no remote call, no database
query, caches unchanged. -/
theorem ensureConversation_memory_hit (userID : String) (env : RemoteEnv) (config : Config)
    (contactID : Int) (chatJID : String) (st : ServiceState) (db : DbState) (convID : Int)
    (hmem : assocLookup st.conversationCache (userID ++ ":" ++ chatJID) = some convID) :
    ensureConversation userID env config contactID chatJID st db
      = { result := Except.ok convID, state := st, db := db, calls := [],
          dbQueried := false } := by
  unfold ensureConversation
  simp [hmem]

/-- A database-tier hit populates the memory cache and returns without any
remote call. -/
theorem ensureConversation_db_hit (userID : String) (env : RemoteEnv) (config : Config)
    (contactID : Int) (chatJID : String) (st : ServiceState) (db : DbState)
    (row : ConversationRow)
    (hmem : assocLookup st.conversationCache (userID ++ ":" ++ chatJID) = none)
    (hdb : dbLookupConversation db userID chatJID = some row) :
    ensureConversation userID env config contactID chatJID st db
      = { result := Except.ok row.chatwootConversationID,
          state := { st with conversationCache := assocStore st.conversationCache (userID ++ ":" ++ chatJID) row.chatwootConversationID },
          db := db, calls := [], dbQueried := true } := by
  unfold ensureConversation
  simp [hmem, hdb]

/-- Iterating from a state whose memory cache already holds the pair
yields only memory-tier hits. -/
theorem iterateEnsure_memory_hit (userID : String) (env : RemoteEnv) (config : Config)
    (contactID : Int) (chatJID : String) (st : ServiceState) (db : DbState) (convID : Int)
    (hmem : assocLookup st.conversationCache (userID ++ ":" ++ chatJID) = some convID)
    (n : Nat) :
    iterateEnsure userID env config contactID chatJID n st db
      = List.replicate n
          { result := Except.ok convID, state := st, db := db, calls := [],
            dbQueried := false } := by
  induction n with
  | zero => rfl
  | succ n ih =>
      simp only [iterateEnsure]
      rw [ensureConversation_memory_hit userID env config contactID chatJID st db convID hmem]
      simp [ih, List.replicate_succ]

/-- `find?` skips a whole leading block in which nothing matches. -/
theorem findAppendOfNoneLeft {α : Type} (p : α → Bool) (l1 l2 : List α)
    (h : l1.find? p = none) : (l1 ++ l2).find? p = l2.find? p := by
  induction l1 with
  | nil => rfl
  | cons a tl ih =>
      cases hp : p a
      · simp only [List.find?_cons, hp] at h
        simp only [List.cons_append, List.find?_cons, hp]
        exact ih h
      · simp [List.find?_cons, hp] at h

/-- C9: for a fixed (tenant, chat) pair with cold caches, `n + 1`
sequential `ensureConversation` calls perform exactly one remote
conversation-creation call — the first call creates and the remaining `n`
calls are memory-tier hits (no remote call, no database query); after a
restart that clears the memory cache, the call is served from the
persistent tier (database queried, zero remote calls). -/
theorem conversation_cache_single_creation (userID chatJID : String) (env : RemoteEnv)
    (config : Config) (contactID convID : Int) (st0 : ServiceState) (db0 : DbState) (n : Nat)
    (hmem0 : assocLookup st0.conversationCache (userID ++ ":" ++ chatJID) = none)
    (hdb0 : dbLookupConversation db0 userID chatJID = none)
    (hins : db0.insertOk = true)
    (hcr : env.createConversation contactID (config.inboxID.getD 0) ("wa:" ++ chatJID)
      config.conversationPending = Except.ok convID) :
    (ensureConversation userID env config contactID chatJID st0 db0).result = Except.ok convID
    ∧ (ensureConversation userID env config contactID chatJID st0 db0).calls
        = [RemoteCall.createConversation contactID (config.inboxID.getD 0) ("wa:" ++ chatJID)
            config.conversationPending]
    ∧ iterateEnsure userID env config contactID chatJID (n + 1) st0 db0
        = ensureConversation userID env config contactID chatJID st0 db0
          :: List.replicate n
              { result := Except.ok convID,
                state := (ensureConversation userID env config contactID chatJID st0 db0).state,
                db := (ensureConversation userID env config contactID chatJID st0 db0).db,
                calls := [], dbQueried := false }
    ∧ totalCreates (iterateEnsure userID env config contactID chatJID (n + 1) st0 db0) = 1
    ∧ (ensureConversation userID env config contactID chatJID
        { dedupeCache := [], conversationCache := [] }
        (ensureConversation userID env config contactID chatJID st0 db0).db).result
        = Except.ok convID
    ∧ (ensureConversation userID env config contactID chatJID
        { dedupeCache := [], conversationCache := [] }
        (ensureConversation userID env config contactID chatJID st0 db0).db).calls = []
    ∧ (ensureConversation userID env config contactID chatJID
        { dedupeCache := [], conversationCache := [] }
        (ensureConversation userID env config contactID chatJID st0 db0).db).dbQueried
        = true := by
  have hfirst : ensureConversation userID env config contactID chatJID st0 db0
      = { result := Except.ok convID,
          state := { st0 with conversationCache := assocStore st0.conversationCache (userID ++ ":" ++ chatJID) convID },
          db := { db0 with chatwootConversations := db0.chatwootConversations ++ [{ userID := userID, chatJID := chatJID, chatwootConversationID := convID, chatwootContactID := contactID, chatwootInboxID := config.inboxID.getD 0 }] },
          calls := [RemoteCall.createConversation contactID (config.inboxID.getD 0) ("wa:" ++ chatJID) config.conversationPending],
          dbQueried := true } := by
    unfold ensureConversation
    simp [hmem0, hdb0, hcr, hins]
  have hmem1 : assocLookup (ensureConversation userID env config contactID chatJID st0 db0).state.conversationCache
      (userID ++ ":" ++ chatJID) = some convID := by
    rw [hfirst]
    exact assocLookup_assocStore_self st0.conversationCache (userID ++ ":" ++ chatJID) convID
  have hiter : iterateEnsure userID env config contactID chatJID (n + 1) st0 db0
      = ensureConversation userID env config contactID chatJID st0 db0
        :: List.replicate n
            { result := Except.ok convID,
              state := (ensureConversation userID env config contactID chatJID st0 db0).state,
              db := (ensureConversation userID env config contactID chatJID st0 db0).db,
              calls := [], dbQueried := false } := by
    simp only [iterateEnsure]
    rw [iterateEnsure_memory_hit userID env config contactID chatJID _ _ convID hmem1 n]
  have hrestart : ensureConversation userID env config contactID chatJID
      { dedupeCache := [], conversationCache := [] }
      (ensureConversation userID env config contactID chatJID st0 db0).db
      = { result := Except.ok convID,
          state := { dedupeCache := [], conversationCache := assocStore [] (userID ++ ":" ++ chatJID) convID },
          db := (ensureConversation userID env config contactID chatJID st0 db0).db,
          calls := [], dbQueried := true } := by
    have hdb1 : dbLookupConversation (ensureConversation userID env config contactID chatJID st0 db0).db
        userID chatJID
        = some { userID := userID, chatJID := chatJID, chatwootConversationID := convID,
                 chatwootContactID := contactID, chatwootInboxID := config.inboxID.getD 0 } := by
      rw [hfirst]
      unfold dbLookupConversation at hdb0 ⊢
      simp only []
      rw [findAppendOfNoneLeft _ _ _ hdb0]
      simp [List.find?_cons]
    rw [ensureConversation_db_hit userID env config contactID chatJID
      { dedupeCache := [], conversationCache := [] }
      (ensureConversation userID env config contactID chatJID st0 db0).db
      { userID := userID, chatJID := chatJID, chatwootConversationID := convID, chatwootContactID := contactID, chatwootInboxID := config.inboxID.getD 0 }
      rfl hdb1]
  refine ⟨?_, ?_, hiter, ?_, ?_, ?_, ?_⟩
  · rw [hfirst]
  · rw [hfirst]
  · rw [hiter, hfirst]
    simp [totalCreates, countCreateConversation, isCreateConversationCall, List.map_replicate,
      List.sum_replicate]
  · rw [hrestart]
  · rw [hrestart]
  · rw [hrestart]

/-- Witness for C9 at concrete inputs: three sequential calls for the
sample tenant/chat against the all-success environment, then a restart. -/
theorem conversation_cache_single_creation_witness :
    (ensureConversation "u1" okEnv sampleConfig 42 "c@g.us"
        { dedupeCache := [], conversationCache := [] } sampleDb).result = Except.ok 314
    ∧ (ensureConversation "u1" okEnv sampleConfig 42 "c@g.us"
        { dedupeCache := [], conversationCache := [] } sampleDb).calls
        = [RemoteCall.createConversation 42 (sampleConfig.inboxID.getD 0) ("wa:" ++ "c@g.us")
            sampleConfig.conversationPending]
    ∧ iterateEnsure "u1" okEnv sampleConfig 42 "c@g.us" (2 + 1)
        { dedupeCache := [], conversationCache := [] } sampleDb
        = ensureConversation "u1" okEnv sampleConfig 42 "c@g.us"
            { dedupeCache := [], conversationCache := [] } sampleDb
          :: List.replicate 2
              { result := Except.ok 314,
                state := (ensureConversation "u1" okEnv sampleConfig 42 "c@g.us"
                  { dedupeCache := [], conversationCache := [] } sampleDb).state,
                db := (ensureConversation "u1" okEnv sampleConfig 42 "c@g.us"
                  { dedupeCache := [], conversationCache := [] } sampleDb).db,
                calls := [], dbQueried := false }
    ∧ totalCreates (iterateEnsure "u1" okEnv sampleConfig 42 "c@g.us" (2 + 1)
        { dedupeCache := [], conversationCache := [] } sampleDb) = 1
    ∧ (ensureConversation "u1" okEnv sampleConfig 42 "c@g.us"
        { dedupeCache := [], conversationCache := [] }
        (ensureConversation "u1" okEnv sampleConfig 42 "c@g.us"
          { dedupeCache := [], conversationCache := [] } sampleDb).db).result = Except.ok 314
    ∧ (ensureConversation "u1" okEnv sampleConfig 42 "c@g.us"
        { dedupeCache := [], conversationCache := [] }
        (ensureConversation "u1" okEnv sampleConfig 42 "c@g.us"
          { dedupeCache := [], conversationCache := [] } sampleDb).db).calls = []
    ∧ (ensureConversation "u1" okEnv sampleConfig 42 "c@g.us"
        { dedupeCache := [], conversationCache := [] }
        (ensureConversation "u1" okEnv sampleConfig 42 "c@g.us"
          { dedupeCache := [], conversationCache := [] } sampleDb).db).dbQueried = true :=
  conversation_cache_single_creation "u1" "c@g.us" okEnv sampleConfig 42 314
    { dedupeCache := [], conversationCache := [] } sampleDb 2 rfl rfl rfl rfl

/-! ## Claim C6 — send failures observable as non-2xx -/

/-- When the attachment loop reports success, every send it performed
succeeded (given that the accumulator only holds successful sends). -/
theorem sendAttachmentsLoop_all_ok (wa : WaEnv) (content : String) :
    ∀ (atts : List CwAttachment) (k : Nat) (sent0 : List (String × SendOutcome))
      (stored0 : List String) (sent : List (String × SendOutcome)) (stored : List String),
      (∀ q ∈ sent0, q.2.isOk = true) →
      sendAttachmentsLoop wa content atts k sent0 stored0 = (sent, stored, true) →
      ∀ q ∈ sent, q.2.isOk = true := by
  intro atts
  induction atts with
  | nil =>
      intro k sent0 stored0 sent stored h0 heq
      simp only [sendAttachmentsLoop, Prod.mk.injEq] at heq
      obtain ⟨h1, h2, _⟩ := heq
      subst h1
      exact h0
  | cons a tl ih =>
      intro k sent0 stored0 sent stored h0 heq
      simp only [sendAttachmentsLoop] at heq
      cases hs : wa.send k with
      | sendErr m =>
          rw [hs] at heq
          simp at heq
      | sendOk respID =>
          rw [hs] at heq
          refine ih (k + 1) _ _ sent stored ?_ heq
          intro q hq
          rcases List.mem_append.mp hq with h | h
          · exact h0 q h
          · simp at h
            rw [h]
            rfl

/-- The delivery stage satisfies the observability contract: it answers
`success` only when every send it made succeeded, and any failed send
yields a 500 without a `success` body. -/
theorem webhookDeliverStage_observable (p : ChatwootWebhookPayload) (wa : WaEnv)
    (convStored : Bool) :
    (("status", "success") ∈ (webhookDeliverStage p wa convStored).body →
      (webhookDeliverStage p wa convStored).status = 200
      ∧ ∀ q ∈ (webhookDeliverStage p wa convStored).sends, q.2.isOk = true)
    ∧ ((∃ q ∈ (webhookDeliverStage p wa convStored).sends, q.2.isOk = false) →
      (webhookDeliverStage p wa convStored).status = 500
      ∧ ("status", "success") ∉ (webhookDeliverStage p wa convStored).body) := by
  unfold webhookDeliverStage
  cases hfind : p.conversation.messages.find? (fun m => m.id == p.id && !m.attachments.isEmpty) with
  | some m =>
      dsimp only
      rcases hloop : sendAttachmentsLoop wa p.content m.attachments 0 [] [] with ⟨sent, stored, ok⟩
      cases ok
      · dsimp only
        simp
      · dsimp only
        have hall := sendAttachmentsLoop_all_ok wa p.content m.attachments 0 [] [] sent stored
          (by simp) hloop
        constructor
        · intro _
          exact ⟨rfl, hall⟩
        · rintro ⟨q, hq, hbad⟩
          rw [hall q hq] at hbad
          cases hbad
  | none =>
      by_cases hc : p.content ≠ ""
      · cases hsend : wa.send 0 with
        | sendErr m => simp [hc, hsend, SendOutcome.isOk]
        | sendOk respID => simp [hc, hsend, SendOutcome.isOk]
      · simp [hc]

/-- The connectivity stage either rejects with a sendless 503 or delegates
to the delivery stage. -/
theorem webhookConnectivityStage_observable (p : ChatwootWebhookPayload) (wa : WaEnv)
    (convStored : Bool) :
    (("status", "success") ∈ (webhookConnectivityStage p wa convStored).body →
      (webhookConnectivityStage p wa convStored).status = 200
      ∧ ∀ q ∈ (webhookConnectivityStage p wa convStored).sends, q.2.isOk = true)
    ∧ ((∃ q ∈ (webhookConnectivityStage p wa convStored).sends, q.2.isOk = false) →
      (webhookConnectivityStage p wa convStored).status = 500
      ∧ ("status", "success") ∉ (webhookConnectivityStage p wa convStored).body) := by
  unfold webhookConnectivityStage
  by_cases h1 : !wa.clientPresent
  · simp [h1]
  by_cases h2 : !wa.loggedIn
  · simp [h1, h2]
  by_cases h3 : !wa.connected
  · simp [h1, h2, h3]
  simp only [h1, h2, h3, if_false, Bool.false_eq_true, ite_false]
  simpa [h1, h2, h3] using webhookDeliverStage_observable p wa convStored

/-- C6: with a resolved tenant and a parsed payload,
`HandleChatwootWebhook` responds `success` (HTTP 200, status `success`)
only when every WhatsApp send it performed completed successfully — the
sends happen before the response is computed (synchronously) — and as
soon as one send fails the handler responds HTTP 500 without a `success`
status, so the ticketing platform can observe the delivery failure. -/
theorem webhook_send_failure_observable (userID : String) (p : ChatwootWebhookPayload)
    (wa : WaEnv) :
    (("status", "success") ∈ (HandleChatwootWebhook (some userID) (some p) wa).body →
      (HandleChatwootWebhook (some userID) (some p) wa).status = 200
      ∧ ∀ q ∈ (HandleChatwootWebhook (some userID) (some p) wa).sends, q.2.isOk = true)
    ∧ ((∃ q ∈ (HandleChatwootWebhook (some userID) (some p) wa).sends, q.2.isOk = false) →
      (HandleChatwootWebhook (some userID) (some p) wa).status = 500
      ∧ ("status", "success") ∉ (HandleChatwootWebhook (some userID) (some p) wa).body) := by
  unfold HandleChatwootWebhook
  dsimp only
  by_cases h1 : p.event ≠ "message_created"
  · rw [if_pos h1]
    simp
  rw [if_neg h1]
  by_cases h2 : p.messageType ≠ "outgoing"
  · rw [if_pos h2]
    simp
  rw [if_neg h2]
  by_cases h3 : p.isPrivate = true
  · rw [if_pos h3]
    simp
  rw [if_neg h3]
  cases hmsgs : p.conversation.messages with
  | nil =>
      dsimp only
      rw [if_neg (show ¬(false = true) by simp)]
      by_cases h5 : (if p.conversation.metaSender.identifier = "" then goTrimPre p.conversation.metaSender.phoneNumber "+" else localPart p.conversation.metaSender.identifier) = ""
      · rw [if_pos h5]
        simp
      · rw [if_neg h5]
        simpa using webhookConnectivityStage_observable p wa (decide (0 < p.conversation.id))
  | cons firstMsg rest =>
      dsimp only
      by_cases h4 : (goHasPre firstMsg.sourceID "WAID:" && firstMsg.id == p.id) = true
      · rw [if_pos h4]
        simp
      · rw [if_neg h4]
        by_cases h5 : (if p.conversation.metaSender.identifier = "" then goTrimPre p.conversation.metaSender.phoneNumber "+" else localPart p.conversation.metaSender.identifier) = ""
        · rw [if_pos h5]
          simp
        · rw [if_neg h5]
          simpa using webhookConnectivityStage_observable p wa (decide (0 < p.conversation.id))

/-- A webhook payload whose text send succeeds, for the C6 witness. -/
def outboundTextPayload : ChatwootWebhookPayload :=
  { event := "message_created", messageType := "outgoing", id := 21, content := "Hi there",
    isPrivate := false,
    conversation :=
      { id := 5, status := "open",
        metaSender := { id := 9, identifier := "5511999999999@s.whatsapp.net", phoneNumber := "+5511999999999" },
        messages := [{ id := 21, sourceID := "", attachments := [] }] },
    inboxID := 3 }

/-- A WhatsApp environment that accepts every send. -/
def waEnvOk : WaEnv :=
  { clientPresent := true, loggedIn := true, connected := true,
    send := fun _ => SendOutcome.sendOk "WAID-NEW-1" }

/-- Witness for C6 at a concrete successful text delivery: the handler
answered `success`, so every send it performed succeeded. -/
theorem webhook_send_failure_observable_witness :
    (HandleChatwootWebhook (some "u1") (some outboundTextPayload) waEnvOk).status = 200
    ∧ ∀ q ∈ (HandleChatwootWebhook (some "u1") (some outboundTextPayload) waEnvOk).sends,
        q.2.isOk = true :=
  (webhook_send_failure_observable "u1" outboundTextPayload waEnvOk).1 (by decide)

/-! ## Claim C1 — loop prevention -/

/-- A key registered by the fold of stores (or already mapped to `v`) is
found with value `v` afterwards. -/
theorem assocLookup_foldl_store (ids : List String) (v : Nat) (key : String) :
    ∀ c0 : List (String × Nat), (key ∈ ids ∨ assocLookup c0 key = some v) →
      assocLookup (ids.foldl (fun c i => assocStore c i v) c0) key = some v := by
  induction ids with
  | nil =>
      intro c0 h
      rcases h with h | h
      · exact absurd h (List.not_mem_nil key)
      · simpa using h
  | cons i tl ih =>
      intro c0 h
      simp only [List.foldl_cons]
      apply ih
      by_cases hik : i = key
      · subst hik
        right
        exact assocLookup_assocStore_self c0 i v
      · rcases h with h | h
        · rcases List.mem_cons.mp h with h1 | h1
          · exact absurd h1.symm hik
          · exact Or.inl h1
        · right
          rw [assocLookup_assocStore_ne c0 key i v hik]
          exact h

/-- C1: (a) an outbound webhook whose first listed conversation message
carries the reserved `WAID:` source-id prefix and whose id equals the
event id is answered 200 with status `ignored` and performs zero WhatsApp
sends; (b) every message id registered in the Dedup Guard by the reverse
path after a successful send is not reprocessed when it reappears on the
inbound path: `HandleIncomingMessage` returns success with zero remote API
calls for it. -/
theorem loop_prevention :
    (∀ (userID : String) (p : ChatwootWebhookPayload) (wa : WaEnv)
        (firstMsg : CwMessage) (rest : List CwMessage),
        p.conversation.messages = firstMsg :: rest →
        goHasPre firstMsg.sourceID "WAID:" = true →
        firstMsg.id = p.id →
        (HandleChatwootWebhook (some userID) (some p) wa).status = 200
        ∧ ("status", "ignored") ∈ (HandleChatwootWebhook (some userID) (some p) wa).body
        ∧ (HandleChatwootWebhook (some userID) (some p) wa).sends = [])
    ∧ (∀ (out : WebhookOutcome) (now now2 : Nat) (st : ServiceState) (evt : MessageEvent)
        (userID : String) (db : DbState) (env : RemoteEnv),
        evt.id ∈ out.dedupeStored →
        (HandleIncomingMessage userID evt now2 (registerOutboundIds out now st) db env).result
          = Except.ok ()
        ∧ (HandleIncomingMessage userID evt now2 (registerOutboundIds out now st) db env).calls
          = []) := by
  constructor
  · intro userID p wa firstMsg rest hmsgs hpre hid
    unfold HandleChatwootWebhook
    dsimp only
    by_cases h1 : p.event ≠ "message_created"
    · rw [if_pos h1]
      exact ⟨rfl, by simp, rfl⟩
    rw [if_neg h1]
    by_cases h2 : p.messageType ≠ "outgoing"
    · rw [if_pos h2]
      exact ⟨rfl, by simp, rfl⟩
    rw [if_neg h2]
    by_cases h3 : p.isPrivate = true
    · rw [if_pos h3]
      exact ⟨rfl, by simp, rfl⟩
    rw [if_neg h3]
    rw [hmsgs]
    dsimp only
    rw [if_pos (show (goHasPre firstMsg.sourceID "WAID:" && firstMsg.id == p.id) = true by
      simp [hpre, hid])]
    exact ⟨rfl, by simp, rfl⟩
  · intro out now now2 st evt userID db env hmem
    have hlook : assocLookup (registerOutboundIds out now st).dedupeCache evt.id = some now := by
      unfold registerOutboundIds
      dsimp only
      exact assocLookup_foldl_store out.dedupeStored now evt.id st.dedupeCache (Or.inl hmem)
    unfold HandleIncomingMessage dedupeLoadOrStore
    simp [hlook]

/-- An echoed webhook payload: the first conversation message was created
by the bridge itself (source id `WAID:...`, matching event id). -/
def echoWebhookPayload : ChatwootWebhookPayload :=
  { event := "message_created", messageType := "outgoing", id := 17, content := "Hi",
    isPrivate := false,
    conversation :=
      { id := 5, status := "open",
        metaSender := { id := 9, identifier := "5511999999999@s.whatsapp.net", phoneNumber := "+5511999999999" },
        messages := [{ id := 17, sourceID := "WAID:ABC123", attachments := [] }] },
    inboxID := 3 }

/-- Witness for C1: the echoed payload is ignored with zero sends, and the
id stored by a successful outbound send is suppressed on the inbound
path. -/
theorem loop_prevention_witness :
    ((HandleChatwootWebhook (some "u1") (some echoWebhookPayload) waEnvOk).status = 200
      ∧ ("status", "ignored") ∈ (HandleChatwootWebhook (some "u1") (some echoWebhookPayload) waEnvOk).body
      ∧ (HandleChatwootWebhook (some "u1") (some echoWebhookPayload) waEnvOk).sends = [])
    ∧ ((HandleIncomingMessage "u1" (sampleTextEvent "WAID-NEW-1") 50
          (registerOutboundIds (HandleChatwootWebhook (some "u1") (some outboundTextPayload) waEnvOk) 40
            { dedupeCache := [], conversationCache := [] }) sampleDb okEnv).result = Except.ok ()
      ∧ (HandleIncomingMessage "u1" (sampleTextEvent "WAID-NEW-1") 50
          (registerOutboundIds (HandleChatwootWebhook (some "u1") (some outboundTextPayload) waEnvOk) 40
            { dedupeCache := [], conversationCache := [] }) sampleDb okEnv).calls = []) :=
  ⟨loop_prevention.1 "u1" echoWebhookPayload waEnvOk
      { id := 17, sourceID := "WAID:ABC123", attachments := [] } [] rfl (by decide) rfl,
   loop_prevention.2 (HandleChatwootWebhook (some "u1") (some outboundTextPayload) waEnvOk)
      40 50 { dedupeCache := [], conversationCache := [] } (sampleTextEvent "WAID-NEW-1")
      "u1" sampleDb okEnv (by decide)⟩

end Wuzapi
